import Mathlib

/-!
Shallow embedding of `src/postprocess/process_astrom.py` (astrometry.net
solution post-processing).  Python floats are modelled as `ℚ` in the parser
and header arithmetic (every operation there is a field operation on decimal
literals) and as `ℝ` in the trigonometric matrix derivation `cd2cd`.
Python exceptions are modelled by `Except PyErr`.  Python string primitives
(`split`, `strip`, slicing, `upper`, `join`) are modelled by structurally
recursive functions on the character list of the string.
-/

namespace Astrom

/-- Python exceptions raised by the script, by raise site:
`valueError` — `float(...)` on a non-numeric string;
`indexError` — list subscript out of range;
`unknownUnit` — the bare `raise` in `parse_txt` when the unit token is not in
the conversion table (the spec calls this `UnknownUnitError`);
`keyError k` — dict subscript `d[k]` with key `k` missing;
`zeroDivision` — float division by zero. -/
inductive PyErr where
  | valueError
  | indexError
  | unknownUnit
  | keyError (k : String)
  | zeroDivision
  deriving DecidableEq, Repr

/-- Python `l[i]` on a list: `IndexError` when out of range. -/
def pyIdx {α : Type} (l : List α) (i : Nat) : Except PyErr α :=
  match l.get? i with
  | some a => .ok a
  | none => .error .indexError

/-- Python `l[-1]` on the (always non-empty) result of `str.split`. -/
def pyLast (l : List String) : String := l.getLastD ""

/-- Core of `str.split(sep)` for a one-character separator, on the character
list: splits at every separator occurrence and keeps empty pieces, so that
`"a  b".split(" ") == ["a", "", "b"]` and `"".split(" ") == [""]`. -/
def pysplitChar (sep : Char) : List Char → List (List Char)
  | [] => [[]]
  | c :: rest =>
    match pysplitChar sep rest with
    | [] => [[]]
    | t :: ts => if c = sep then [] :: t :: ts else (c :: t) :: ts

/-- Python `s.split(sep)` for a one-character separator. -/
def pysplit (s : String) (sep : Char) : List String :=
  (pysplitChar sep s.toList).map String.mk

/-- Python `str.strip()` with no argument: remove whitespace from both ends. -/
def pystrip (s : String) : String :=
  let l := s.toList.dropWhile Char.isWhitespace
  String.mk ((l.reverse.dropWhile Char.isWhitespace).reverse)

/-- Python slice `s[n:]`. -/
def pydrop (s : String) (n : Nat) : String := String.mk (s.toList.drop n)

/-- Python slice `s[0:n]`. -/
def pytake (s : String) (n : Nat) : String := String.mk (s.toList.take n)

/-- Python slice `s[:-n]` (for `0 < n ≤ len(s)`; empty result when `n` is
at least the length). -/
def pydropRight (s : String) (n : Nat) : String :=
  String.mk (s.toList.take (s.toList.length - n))

/-- Digit list to natural number, most significant digit first. -/
def digitsToNat (l : List Char) : Nat :=
  l.foldl (fun n c => n * 10 + (c.toNat - 48)) 0

/-- Decimal significand: digits with an optional fractional part, per the
grammar Python's `float(...)` accepts for plain decimals (`81`, `81.4539`,
`81.`, `.45`; the string `"."` alone and the empty string are rejected). -/
def parseUnsigned (cs : List Char) : Option ℚ :=
  let intPart := cs.takeWhile Char.isDigit
  let rest := cs.dropWhile Char.isDigit
  match rest with
  | [] => if intPart.isEmpty then none else some (digitsToNat intPart : ℚ)
  | c :: frac =>
    if c = '.' then
      if frac.all Char.isDigit && !(intPart.isEmpty && frac.isEmpty) then
        some ((digitsToNat intPart : ℚ) +
          (digitsToNat frac : ℚ) / (10 : ℚ) ^ frac.length)
      else none
    else none

/-- Python `float(s)` restricted to plain signed decimal literals, which is
the shape of every numeric token in the fixed report format. -/
def parseFloat (s : String) : Option ℚ :=
  match s.toList with
  | [] => none
  | c :: rest =>
    if c = '+' then parseUnsigned rest
    else if c = '-' then (parseUnsigned rest).map Neg.neg
    else parseUnsigned (c :: rest)

/-- `float(...)` as an exception-raising operation (`ValueError` on failure). -/
def pyFloat (s : String) : Except PyErr ℚ :=
  match parseFloat s with
  | some q => .ok q
  | none => .error .valueError

/-- `parse_filename`: split `f` on `-`, replace the last piece by its part
before the first `.`, and zip with `("bibcode", "page", "figN")`
(`dict(zip(...))` truncates; `dict.get` of a missing key is `None`). -/
def parse_filename (f : String) : Option String × Option String × Option String :=
  let values := pysplit f '-'
  let values := values.dropLast ++ [(pysplit (pyLast values) '.').headD ""]
  (values.get? 0, values.get? 1, values.get? 2)

/-- The tiny unit-conversion table `u` in `parse_txt` (units per degree). -/
def u_table (s : String) : Option ℚ :=
  if s = "arcseconds" then some 3600
  else if s = "arcminutes" then some 60
  else if s = "degrees" then some 1
  else none

/-- Line 2 of the report: first space token with its leading marker char
stripped (`data[1].split(" ")[0][1:]`), compared with the literal
`inverted`. -/
def parse_inverted (line : String) : Bool :=
  pydrop ((pysplit line ' ').headD "") 1 = "inverted"

/-- Line 3 of the report: `(RA, DEC)` — RA is space token 0 with its first
and last characters stripped, DEC is token 1 with its last character
stripped; both fed to `float`. -/
def parse_radec (line : String) : Except PyErr (ℚ × ℚ) := do
  let toks := pysplit line ' '
  let t0 ← pyIdx toks 0
  let ra ← pyFloat (pydropRight (pydrop t0 1) 1)
  let t1 ← pyIdx toks 1
  let dec ← pyFloat (pydropRight t1 1)
  return (ra, dec)

/-- Line 4 of the report: `<width> x <height> <unit>` — space tokens 0 and 2
are fed to `float`, token 3 must be in `u_table` (otherwise the bare
`raise`), and width/height are divided by the units-per-degree factor. -/
def parse_size (line : String) : Except PyErr (ℚ × ℚ) := do
  let toks := pysplit line ' '
  let t0 ← pyIdx toks 0
  let xs ← pyFloat t0
  let t2 ← pyIdx toks 2
  let ys ← pyFloat t2
  let us ← pyIdx toks 3
  match u_table us with
  | none => .error .unknownUnit
  | some f => return (xs / f, ys / f)

/-- Line 5 of the report: rotation angle is space token 5, fed to `float`. -/
def parse_rotation (line : String) : Except PyErr ℚ := do
  let toks := pysplit line ' '
  let t5 ← pyIdx toks 5
  pyFloat t5

/-- The dictionary `parse_txt` returns when the report is solved. -/
structure SolvedRecord where
  ra : ℚ
  dec : ℚ
  inverted : Bool
  bibcode : Option String
  figN : Option String
  page : Option String
  xs : ℚ
  ys : ℚ
  rt : ℚ
  txt : List String
  deriving DecidableEq, Repr

/-- Result of `parse_txt`: either the `{"solved": False}` sentinel, which
carries no other field, or the full solved record. -/
inductive ParseResult where
  | unsolved
  | solved (r : SolvedRecord)
  deriving DecidableEq, Repr

/-- `parse_txt`, over the list of lines of the `.txt` file (the file-reading
wrapper `open`/`readlines` is external I/O). -/
def parse_txt (lines : List String) : Except PyErr ParseResult := do
  let data := lines.map pystrip
  if data.length = 3 then return .unsolved
  let l0 ← pyIdx data 0
  let pf := parse_filename (pyLast (pysplit l0 ' '))
  let l1 ← pyIdx data 1
  let inverted := parse_inverted l1
  let l2 ← pyIdx data 2
  let (ra, dec) ← parse_radec l2
  let l3 ← pyIdx data 3
  let (xs, ys) ← parse_size l3
  let l4 ← pyIdx data 4
  let rt ← parse_rotation l4
  return .solved
    { ra := ra, dec := dec, inverted := inverted,
      bibcode := pf.1, figN := pf.2.2, page := pf.2.1,
      xs := xs, ys := ys, rt := rt, txt := data }

/-- `math.radians`: degrees to radians. -/
noncomputable def radians (x : ℝ) : ℝ := x * (Real.pi / 180)

/-- `cd2cd(cdelt1, cdelt2, crota2, ret)`: builds the CD matrix
(rows = sky axes, columns = pixel axes) from the per-axis scales and the
rotation angle in degrees, and the PC matrix by dividing each CD row by its
row's scale; returns the one selected by `ret`, and `None` (falling off the
end of the function) for any other selector. -/
noncomputable def cd2cd (cdelt1 cdelt2 crota2 : ℝ) (ret : String) :
    Option (Matrix (Fin 2) (Fin 2) ℝ) :=
  let crota2 := radians crota2
  let cd : Matrix (Fin 2) (Fin 2) ℝ :=
    !![cdelt1 * Real.cos crota2, cdelt1 * Real.sin crota2;
       -cdelt2 * Real.sin crota2, cdelt2 * Real.cos crota2]
  let pc : Matrix (Fin 2) (Fin 2) ℝ :=
    !![cd 0 0 / cdelt1, cd 0 1 / cdelt1;
       cd 1 0 / cdelt2, cd 1 1 / cdelt2]
  if ret = "cd" then some cd
  else if ret = "pc" then some pc
  else none

/-- The image-size dictionary built by `parse_img` (PIL supplies the pixel
sizes as integers). -/
structure Img where
  xs : Nat
  ys : Nat
  deriving DecidableEq, Repr

/-- `vkey`: FITS key validator, `str(v).upper()[0:8]`. -/
def vkey (v : String) : String :=
  pytake (String.mk (v.toList.map Char.toUpper)) 8

/-- A FITS header value as used by this script. -/
inductive HVal where
  | s (v : String)
  | os (v : Option String)
  | q (v : ℚ)
  deriving DecidableEq, Repr

/-- The header object assembled by `build_hdr`: the WCS fields set on the
`astropy.wcs.WCS` object, plus the documentation cards added by `document`
and the `COMMENT` cards added by `comments`. -/
structure Hdr where
  ctype : List String
  cunit : List String
  crpix : List ℤ
  crval : List ℚ
  pc : Matrix (Fin 2) (Fin 2) ℝ
  cdelt : List ℚ
  docs : List (String × HVal × String)
  comments : List String

/-- `hdr[k] = v` on an astropy header: replace the value of `k` when present,
append the card otherwise. -/
def hdrSet (docs : List (String × HVal × String)) (k : String)
    (v : HVal × String) : List (String × HVal × String) :=
  if docs.any (fun e => e.1 = k) then
    docs.map (fun e => if e.1 = k then (k, v) else e)
  else docs ++ [(k, v)]

/-- Python `sep.join(l)`. -/
def pyJoin (sep : String) (l : List String) : String :=
  String.mk (List.intercalate sep.toList (l.map String.toList))

/-- Python `str.strip(" ")`: strip space characters (only) from both ends. -/
def pystripSpaces (s : String) : String :=
  let l := s.toList.dropWhile (· = ' ')
  String.mk ((l.reverse.dropWhile (· = ' ')).reverse)

/-- Python `str.split()` with no argument: split on whitespace runs,
discarding empty pieces. -/
def pysplitWs (s : String) : List String :=
  ((s.toList.splitOnP Char.isWhitespace).filter (fun t => ¬t.isEmpty)).map
    String.mk

/-- `fits2day`: format today's timestamp (`str(datetime.datetime.today())`,
supplied here as the explicit input `today`) as `YYYY-MM-DDThh:mm:ss` — strip
spaces, join the whitespace-separated parts with `T`, truncate to 19
characters. -/
def fits2day (today : String) : String :=
  let tr := 19
  let a := pystripSpaces today
  pytake (pyJoin "T" (pysplitWs a)) tr

/-- `document(hdr, docs)`: add documentation keys under `vkey`-validated
names; when no `DATE` key is given, add one holding `fits2day()` — the
current wall-clock date, passed here explicitly as `today`. -/
def document (today : String) (hdr : Hdr)
    (docs : List (String × HVal × String)) : Hdr :=
  let docs :=
    if docs.any (fun e => e.1 = "DATE") then docs
    else docs ++ [("DATE", (.s (fits2day today), "Creation date (apx)"))]
  { hdr with docs := docs.foldl (fun h e => hdrSet h (vkey e.1) e.2) hdr.docs }

/-- Python `s * n` for strings. -/
def pyRepeat (s : String) (n : Nat) : String :=
  String.mk (List.replicate n s.toList).flatten

/-- `lsp(l, s, p)`: chop the string `l` into chunks of at most `s`
characters, accumulating into `p`.  (For `s = 0` and a non-empty `l` the
Python original recurses forever; its only caller passes `s = 60`.) -/
def lsp (l : String) (s : Nat) (p : List String) : List String :=
  if l.length ≤ s then p ++ [l]
  else if s = 0 then p ++ [l]
  else lsp (pydrop l s) s (p ++ [pytake l s])
termination_by l.length
decreasing_by
  have h1 : (pydrop l s).length = l.data.length - s := by
    simp [pydrop, String.length_mk, List.length_drop, String.toList]
  have h2 : l.length = l.data.length := rfl
  omega

/-- A value in the `stuff` mapping of `comments`: a plain string or a list
of lines. -/
inductive CVal where
  | str (v : String)
  | lines (v : List String)
  deriving DecidableEq, Repr

/-- One iteration of the `for k, v in stuff.items()` loop of `comments`:
a scalar value becomes the single card `"{k} {v}"`; a list value becomes the
key card followed by each line chopped by `lsp` into indented `|`-prefixed
cards. -/
def commentsEntry (hd : Hdr) (e : String × CVal) : Hdr :=
  match e.2 with
  | .str v => { hd with comments := hd.comments ++ [e.1 ++ " " ++ v] }
  | .lines v =>
    let hd := { hd with comments := hd.comments ++ [e.1] }
    let t := "  "
    let nt := 80 - 10 * t.length
    v.foldl (fun hd l =>
      { hd with comments := hd.comments ++
        ((lsp l nt []).enum.map (fun il =>
          "|" ++ pyRepeat t (il.1 + 1) ++ " " ++ il.2)) }) hd

/-- `comments(hdr, stuff)`: add a separator `COMMENT` card, default the
`Written by` entry to the module constant `s = 'process_astrom.py'`, then
emit each entry via `commentsEntry`. -/
def comments (hdr : Hdr) (stuff : List (String × CVal)) : Hdr :=
  let hdr := { hdr with comments := hdr.comments ++ [pyRepeat "-" 70] }
  let stuff :=
    if stuff.any (fun e => e.1 = "Written by") then stuff
    else stuff ++ [("Written by", .str "process_astrom.py")]
  stuff.foldl commentsEntry hdr

/-- `ldpix`: `math.floor(x / 2)` (true division; `from __future__ import
division` is in force). -/
def ldpix (x : ℚ) : ℤ := ⌊x / 2⌋

/-- Python float division: `ZeroDivisionError` when the divisor is zero. -/
def pydiv (a b : ℚ) : Except PyErr ℚ :=
  if b = 0 then .error .zeroDivision else .ok (a / b)

/-- `build_hdr(img, txt)`: assemble the WCS header from the image sizes and
the parsed record.  The record is the dict returned by `parse_txt`: when it
is the `{"solved": False}` sentinel, the very first access `txt['ra']`
raises `KeyError('ra')`.  `today` is the wall clock read by `fits2day`
inside `document`. -/
noncomputable def build_hdr (today : String) (img : Img) (txt : ParseResult) :
    Except PyErr Hdr := do
  match txt with
  | .unsolved => .error (.keyError "ra")
  | .solved r =>
    let ctype := ["RA---TAN", "DEC--TAN"]
    let cunit := ["deg", "deg"]
    let crpix := [ldpix (img.xs : ℚ), ldpix (img.ys : ℚ)]
    let crval := [r.ra, r.dec]
    let cdelt1 ← pydiv r.xs (img.xs : ℚ)
    let cdelt2 ← pydiv r.ys (img.ys : ℚ)
    let crota2 := r.rt
    let pc := (cd2cd (cdelt1 : ℝ) (cdelt2 : ℝ) (crota2 : ℝ) "pc").getD 0
    let hdr : Hdr :=
      { ctype := ctype, cunit := cunit, crpix := crpix, crval := crval,
        pc := pc, cdelt := [cdelt1, cdelt2], docs := [], comments := [] }
    let docs : List (String × HVal × String) :=
      [("REFERENC", (.os r.bibcode, "ADS Bibcode")),
       ("REF_FIGN", (.os r.figN, "Figure Number")),
       ("REF_PAGE", (.os r.page, "Page Number")),
       ("CROTAX", (.q r.rt, "CROTA2 (hidden)"))]
    let hdr := document today hdr docs
    let hdr := comments hdr [("Original Header", .lines r.txt)]
    return hdr

/-- Documentation cards of a header under a given key. -/
def hdrLookup (hd : Hdr) (k : String) : Option (HVal × String) :=
  (hd.docs.find? (fun e => e.1 = k)).map (fun e => e.2)

/-- A header with its `DATE` documentation card removed. -/
def eraseDate (hd : Hdr) : Hdr :=
  { hd with docs := hd.docs.filter (fun e => ¬(e.1 = "DATE")) }

/-- The example report of the script's docstring (2010Ciel...72..113N,
page 2, figure 2, the Pleiades). -/
def exLines : List String :=
  ["testing image: 2010Ciel...72..113N-002-002.ppm",
   "#non-inverted image solved without SIMBAD coordinates in 613.357455015 seconds",
   "(56.7, 24.15)",
   "81.4539 x 59.1175 arcminutes",
   "Field rotation angle: up is -179.411 degrees E of N"]

/-- The record `parse_txt` produces for `exLines`. -/
def exRec : SolvedRecord :=
  { ra := 567 / 10, dec := 483 / 20, inverted := false,
    bibcode := some "2010Ciel...72..113N", figN := some "002",
    page := some "002",
    xs := 271513 / 200000, ys := 23647 / 24000, rt := -179411 / 1000,
    txt := exLines }

/-! ## Theorems -/

/-- Evaluation of the parser on the example report. -/
theorem exParse : parse_txt exLines = .ok (.solved exRec) := by
  simp +decide [parse_txt, exLines, exRec, pystrip, parse_filename,
    parse_inverted, parse_radec, parse_size, parse_rotation, pysplit,
    pysplitChar, pyIdx, pyFloat, parseFloat, parseUnsigned, digitsToNat,
    u_table, pyLast, pydrop, pytake, pydropRight, Bind.bind, Except.bind,
    pure, Except.pure]
  norm_num

/-- C1: for every per-axis scale pair and rotation angle in degrees, `cd2cd`
in direct/CD form returns the matrix with entries
`sx·cos θr, sx·sin θr; -sy·sin θr, sy·cos θr`, where `θr` is the angle
converted from degrees to radians. -/
theorem cd2cd_cd_matrix (cdelt1 cdelt2 crota2 : ℝ) :
    cd2cd cdelt1 cdelt2 crota2 "cd" =
      some !![cdelt1 * Real.cos (radians crota2),
              cdelt1 * Real.sin (radians crota2);
              -cdelt2 * Real.sin (radians crota2),
              cdelt2 * Real.cos (radians crota2)] := by
  simp [cd2cd]

/-- C10: for every inputs and every representation selector other than
`"cd"` or `"pc"`, `cd2cd` returns no matrix at all (`None`), raising no
error. -/
theorem cd2cd_unknown_selector (cdelt1 cdelt2 crota2 : ℝ) (ret : String)
    (hcd : ret ≠ "cd") (hpc : ret ≠ "pc") :
    cd2cd cdelt1 cdelt2 crota2 ret = none := by
  simp [cd2cd, hcd, hpc]

/-- Witness for C10 at the concrete selector `"cdelt"`. -/
theorem cd2cd_unknown_selector_witness :
    cd2cd 1 1 0 "cdelt" = none :=
  cd2cd_unknown_selector 1 1 0 "cdelt" (by decide) (by decide)

/-- C3: for positive scales, the normalized (PC) form produced by `cd2cd`
together with the scale pair reconstructs the direct (CD) form:
multiplying row `i` of `P` by `scale_i` gives back `M`. -/
theorem cd2cd_pc_roundtrip (cdelt1 cdelt2 crota2 : ℝ)
    (h1 : 0 < cdelt1) (h2 : 0 < cdelt2) :
    (cd2cd cdelt1 cdelt2 crota2 "pc").map
      (fun P => Matrix.of fun i j => P i j * ![cdelt1, cdelt2] i) =
    cd2cd cdelt1 cdelt2 crota2 "cd" := by
  have h1' : cdelt1 ≠ 0 := ne_of_gt h1
  have h2' : cdelt2 ≠ 0 := ne_of_gt h2
  have hpc : cd2cd cdelt1 cdelt2 crota2 "pc" =
      some !![cdelt1 * Real.cos (radians crota2) / cdelt1,
              cdelt1 * Real.sin (radians crota2) / cdelt1;
              -cdelt2 * Real.sin (radians crota2) / cdelt2,
              cdelt2 * Real.cos (radians crota2) / cdelt2] := by
    simp [cd2cd]
  have hcd : cd2cd cdelt1 cdelt2 crota2 "cd" =
      some !![cdelt1 * Real.cos (radians crota2),
              cdelt1 * Real.sin (radians crota2);
              -cdelt2 * Real.sin (radians crota2),
              cdelt2 * Real.cos (radians crota2)] := by
    simp [cd2cd]
  rw [hpc, hcd]
  simp only [Option.map]
  congr 1
  ext i j
  fin_cases i <;> fin_cases j <;>
    simp [Matrix.of_apply, div_mul_cancel₀, h1', h2', mul_comm]
  rw [mul_div_assoc', mul_div_cancel_left₀ _ h2']

/-- Witness for C3 at `(sx, sy, θ) = (1, 1, 0)`. -/
theorem cd2cd_pc_roundtrip_witness :
    (cd2cd 1 1 0 "pc").map
      (fun P => Matrix.of fun i j => P i j * ![(1 : ℝ), 1] i) =
    cd2cd 1 1 0 "cd" :=
  cd2cd_pc_roundtrip 1 1 0 one_pos one_pos

/-- C5: a report of exactly 3 lines parses to the bare unsolved sentinel
(`ParseResult.unsolved` carries no other field), with no further parsing of
the lines. -/
theorem parse_txt_three_lines (lines : List String) (h : lines.length = 3) :
    parse_txt lines = .ok .unsolved := by
  unfold parse_txt
  simp [List.length_map, h, pure, Except.pure]

/-- Witness for C5 on a concrete 3-line report. -/
theorem parse_txt_three_lines_witness :
    parse_txt ["testing image: foo.ppm", "#failed", "no solution"] =
      .ok .unsolved :=
  parse_txt_three_lines _ rfl

/-- Evaluation of `parse_size` when both numeric tokens parse and the unit
token is in the conversion table. -/
theorem parse_size_ok (l3 t0 t2 us : String) (w h f : ℚ)
    (ht0 : (pysplit l3 ' ')[0]? = some t0) (hw : parseFloat t0 = some w)
    (ht2 : (pysplit l3 ' ')[2]? = some t2) (hh : parseFloat t2 = some h)
    (hus : (pysplit l3 ' ')[3]? = some us) (hf : u_table us = some f) :
    parse_size l3 = .ok (w / f, h / f) := by
  simp [parse_size, pyIdx, ht0, ht2, hus, hf, pyFloat, hw, hh,
    Bind.bind, Except.bind, pure, Except.pure]

/-- Evaluation of `parse_size` when both numeric tokens parse but the unit
token is outside the conversion table: the bare `raise`. -/
theorem parse_size_bad_unit (l3 t0 t2 us : String) (w h : ℚ)
    (ht0 : (pysplit l3 ' ')[0]? = some t0) (hw : parseFloat t0 = some w)
    (ht2 : (pysplit l3 ' ')[2]? = some t2) (hh : parseFloat t2 = some h)
    (hus : (pysplit l3 ' ')[3]? = some us) (hf : u_table us = none) :
    parse_size l3 = .error .unknownUnit := by
  simp [parse_size, pyIdx, ht0, ht2, hus, hf, pyFloat, hw, hh,
    Bind.bind, Except.bind]

/-- C2: in a 5-line report that parses successfully, the field width and
height stored in the record are the raw numeric tokens of line 4 divided by
the per-degree factor of the unit token (3600, 60 or 1). -/
theorem parse_txt_unit_normalized
    (lines : List String) (l0 l1 l2 l3 l4 : String) (r : SolvedRecord)
    (hdata : lines.map pystrip = [l0, l1, l2, l3, l4])
    (hok : parse_txt lines = .ok (.solved r))
    (t0 t2 us : String) (w h f : ℚ)
    (ht0 : (pysplit l3 ' ')[0]? = some t0) (hw : parseFloat t0 = some w)
    (ht2 : (pysplit l3 ' ')[2]? = some t2) (hh : parseFloat t2 = some h)
    (hus : (pysplit l3 ' ')[3]? = some us) (hf : u_table us = some f) :
    r.xs = w / f ∧ r.ys = h / f := by
  have hsize := parse_size_ok l3 t0 t2 us w h f ht0 hw ht2 hh hus hf
  unfold parse_txt at hok
  rw [hdata] at hok
  simp +decide [pyIdx, hsize, Bind.bind, Except.bind, pure, Except.pure]
    at hok
  rcases hra : parse_radec l2 with e | p <;> rw [hra] at hok <;>
    simp at hok
  rcases hrt : parse_rotation l4 with e | rt <;> rw [hrt] at hok <;>
    simp at hok
  rw [← hok]
  exact ⟨rfl, rfl⟩

/-- Witness for C2: the spec's end-to-end example report. -/
theorem parse_txt_unit_normalized_witness :
    parse_txt exLines = .ok (.solved exRec) ∧
      exRec.xs = (814539 / 10000 : ℚ) / 60 ∧
      exRec.ys = (591175 / 10000 : ℚ) / 60 :=
  ⟨exParse, parse_txt_unit_normalized exLines
    "testing image: 2010Ciel...72..113N-002-002.ppm"
    "#non-inverted image solved without SIMBAD coordinates in 613.357455015 seconds"
    "(56.7, 24.15)"
    "81.4539 x 59.1175 arcminutes"
    "Field rotation angle: up is -179.411 degrees E of N"
    exRec (by decide) exParse
    "81.4539" "59.1175" "arcminutes" (814539 / 10000) (591175 / 10000) 60
    (by decide)
    (by simp +decide [parseFloat, parseUnsigned, digitsToNat]; norm_num)
    (by decide)
    (by simp +decide [parseFloat, parseUnsigned, digitsToNat]; norm_num)
    (by decide) (by decide)⟩

/-- C4 (amended): in a 5-line report whose earlier numeric tokens parse
(RA of line 3 parses as a float, and the width and height tokens of line 4
parse as floats), a unit token outside the fixed conversion table makes the
parser raise at the unit check (`UnknownUnitError` in the spec's taxonomy);
no default unit is ever substituted. -/
theorem parse_txt_unknown_unit
    (lines : List String) (l0 l1 l2 l3 l4 : String)
    (hdata : lines.map pystrip = [l0, l1, l2, l3, l4])
    (radec : ℚ × ℚ) (hra : parse_radec l2 = .ok radec)
    (t0 t2 us : String) (w h : ℚ)
    (ht0 : (pysplit l3 ' ')[0]? = some t0) (hw : parseFloat t0 = some w)
    (ht2 : (pysplit l3 ' ')[2]? = some t2) (hh : parseFloat t2 = some h)
    (hus : (pysplit l3 ' ')[3]? = some us) (hf : u_table us = none) :
    parse_txt lines = .error .unknownUnit := by
  have hsize := parse_size_bad_unit l3 t0 t2 us w h ht0 hw ht2 hh hus hf
  unfold parse_txt
  rw [hdata]
  simp +decide [pyIdx, hra, hsize, Bind.bind, Except.bind, pure, Except.pure]

/-- Witness for C4 (amended): a well-formed report whose unit token is
`"furlongs"`. -/
theorem parse_txt_unknown_unit_witness :
    parse_txt ["testing image: foo-001-002.ppm", "#inverted image solved",
      "(56.7, 24.15)", "81.4539 x 59.1175 furlongs",
      "Field rotation angle: up is -179.411 degrees E of N"] =
      .error .unknownUnit :=
  parse_txt_unknown_unit _
    "testing image: foo-001-002.ppm" "#inverted image solved"
    "(56.7, 24.15)" "81.4539 x 59.1175 furlongs"
    "Field rotation angle: up is -179.411 degrees E of N"
    (by decide)
    (567 / 10, 483 / 20)
    (by simp +decide [parse_radec, pysplit, pysplitChar, pyIdx, pyFloat,
      parseFloat, parseUnsigned, digitsToNat, pydrop, pydropRight,
      Bind.bind, Except.bind, pure, Except.pure]; norm_num)
    "81.4539" "59.1175" "furlongs" (814539 / 10000) (591175 / 10000)
    (by decide)
    (by simp +decide [parseFloat, parseUnsigned, digitsToNat]; norm_num)
    (by decide)
    (by simp +decide [parseFloat, parseUnsigned, digitsToNat]; norm_num)
    (by decide) (by decide)

/-- Counterexample to C4 as stated: in this 5-line report the unit token of
line 4 is `"furlongs"`, which is outside the conversion table, yet the
parser raises the `float` `ValueError` for the malformed RA token of line 3
— reached before the unit check — not the unknown-unit error. -/
theorem parse_txt_unknown_unit_cex :
    u_table "furlongs" = none ∧
    (pysplit "1 x 2 furlongs" ' ')[3]? = some "furlongs" ∧
    parse_txt ["testing image: foo-001-002.ppm", "#inverted", "xx yy",
      "1 x 2 furlongs", "a b c d e 3.0"] = .error .valueError ∧
    PyErr.valueError ≠ PyErr.unknownUnit := by
  refine ⟨by decide, by decide, ?_, by decide⟩
  rfl

/-- A fold of comment-appending steps only appends to the comments field,
by a list that does not depend on the starting header. -/
theorem foldl_comments_shape {α : Type} (G : α → List String) (v : List α) :
    ∃ d : List String, ∀ hd : Hdr,
      v.foldl (fun hd a => { hd with comments := hd.comments ++ G a }) hd =
        { hd with comments := hd.comments ++ d } := by
  induction v with
  | nil => exact ⟨[], fun hd => by simp⟩
  | cons a t ih =>
    obtain ⟨d, hfold⟩ := ih
    refine ⟨G a ++ d, fun hd => ?_⟩
    simp [List.foldl_cons, hfold, List.append_assoc]

/-- `commentsEntry` only appends to the comments field, by a list that
depends only on the entry. -/
theorem commentsEntry_shape (e : String × CVal) :
    ∃ d : List String, ∀ hd : Hdr,
      commentsEntry hd e = { hd with comments := hd.comments ++ d } := by
  obtain ⟨k, v⟩ := e
  cases v with
  | str s => exact ⟨[k ++ " " ++ s], fun hd => rfl⟩
  | lines v =>
    obtain ⟨d, hfold⟩ := foldl_comments_shape
      (fun l => ((lsp l (80 - 10 * "  ".length) []).enum.map (fun il =>
        "|" ++ pyRepeat "  " (il.1 + 1) ++ " " ++ il.2))) v
    refine ⟨[k] ++ d, fun hd => ?_⟩
    simp [commentsEntry, hfold, List.append_assoc]

/-- Folding `commentsEntry` over any entry list only appends to the
comments field. -/
theorem foldl_commentsEntry_shape (l : List (String × CVal)) :
    ∃ d : List String, ∀ hd : Hdr,
      l.foldl commentsEntry hd = { hd with comments := hd.comments ++ d } := by
  induction l with
  | nil => exact ⟨[], fun hd => by simp⟩
  | cons a t ih =>
    obtain ⟨d, hfold⟩ := ih
    obtain ⟨da, ha⟩ := commentsEntry_shape a
    refine ⟨da ++ d, fun hd => ?_⟩
    simp [List.foldl_cons, ha, hfold, List.append_assoc]

/-- `comments` only appends to the comments field of the header, by a list
that depends only on `stuff`. -/
theorem comments_shape (stuff : List (String × CVal)) :
    ∃ d : List String, ∀ hdr : Hdr,
      comments hdr stuff = { hdr with comments := hdr.comments ++ d } := by
  obtain ⟨d, hfold⟩ := foldl_commentsEntry_shape
    (if stuff.any (fun e => e.1 = "Written by") then stuff
     else stuff ++ [("Written by", .str "process_astrom.py")])
  refine ⟨[pyRepeat "-" 70] ++ d, fun hdr => ?_⟩
  simp only [comments]
  rw [hfold]
  simp [List.append_assoc]

/-- C6: for positive image dimensions, the builder sets the reference pixel
to the per-axis floor of half the pixel dimension. -/
theorem build_hdr_refpixel (today : String) (r : SolvedRecord) (w h : Nat)
    (hw : 0 < w) (hh : 0 < h) :
    (build_hdr today ⟨w, h⟩ (.solved r)).map Hdr.crpix =
      .ok [⌊(w : ℚ) / 2⌋, ⌊(h : ℚ) / 2⌋] := by
  have hw' : ((w : ℚ)) ≠ 0 := Nat.cast_ne_zero.mpr hw.ne'
  have hh' : ((h : ℚ)) ≠ 0 := Nat.cast_ne_zero.mpr hh.ne'
  obtain ⟨d, hcom⟩ := comments_shape [("Original Header", .lines r.txt)]
  unfold build_hdr
  simp [pydiv, hw', hh', Bind.bind, Except.bind, pure, Except.pure, hcom,
    document, ldpix, Except.map]

/-- Witness for C6 at image dimensions 1000 × 800. -/
theorem build_hdr_refpixel_witness :
    (build_hdr "2013-11-04 12:00:00.000000" ⟨1000, 800⟩
      (.solved exRec)).map Hdr.crpix = .ok [500, 400] := by
  rw [build_hdr_refpixel "2013-11-04 12:00:00.000000" exRec 1000 800
    (by norm_num) (by norm_num)]
  norm_num

/-- C7: invoking the builder on the unsolved sentinel record always raises
(`KeyError('ra')` — the first record access fails; the spec's taxonomy calls
the unsolved-precondition violation `InvalidState`); the builder never
returns a header for an unsolved record. -/
theorem build_hdr_unsolved (today : String) (img : Img) :
    build_hdr today img .unsolved = .error (.keyError "ra") := rfl

/-- C8: a zero pixel dimension makes the builder raise at the pixel-scale
division (`ZeroDivisionError`, the spec's `DegenerateGeometryError`); no
infinite or NaN scale is ever produced. -/
theorem build_hdr_zero_dim (today : String) (r : SolvedRecord) (img : Img)
    (hz : img.xs = 0 ∨ img.ys = 0) :
    build_hdr today img (.solved r) = .error .zeroDivision := by
  obtain ⟨x, y⟩ := img
  rcases hz with hz | hz
  · subst hz
    simp [build_hdr, pydiv, Bind.bind, Except.bind]
  · subst hz
    by_cases hx : (x : ℚ) = 0
    · simp [build_hdr, pydiv, hx, Bind.bind, Except.bind]
    · simp [build_hdr, pydiv, hx, Bind.bind, Except.bind]

/-- Witness for C8 at image dimensions 0 × 800. -/
theorem build_hdr_zero_dim_witness :
    build_hdr "2013-11-04 12:00:00.000000" ⟨0, 800⟩ (.solved exRec) =
      .error .zeroDivision :=
  build_hdr_zero_dim "2013-11-04 12:00:00.000000" exRec ⟨0, 800⟩ (Or.inl rfl)

/-- C9 (amended): the parser is a pure function of the report lines, and
every header card the builder emits except the `DATE` documentation card is
a pure function of the image dimensions and the record; only `DATE` reads
the wall clock (modelled as the explicit `today` input). -/
theorem build_hdr_pure_except_date (t1 t2 : String) (img : Img)
    (txt : ParseResult) :
    (build_hdr t1 img txt).map eraseDate =
      (build_hdr t2 img txt).map eraseDate := by
  cases txt with
  | unsolved => rfl
  | solved r =>
    unfold build_hdr
    rcases h1 : pydiv r.xs (img.xs : ℚ) with e | c1
    · simp [h1, Bind.bind, Except.bind]
    rcases h2 : pydiv r.ys (img.ys : ℚ) with e | c2
    · simp [h1, h2, Bind.bind, Except.bind]
    obtain ⟨d, hcom⟩ := comments_shape [("Original Header", .lines r.txt)]
    simp +decide [h1, h2, Bind.bind, Except.bind, pure, Except.pure,
      Except.map, hcom, eraseDate, document, hdrSet]

/-- Counterexample to C9 as stated: on equal inputs (same image dimensions,
same record) but different wall-clock dates, the builder emits different
headers — the `DATE` documentation card holds the current date. -/
theorem build_hdr_clock_dependence_cex :
    (build_hdr "2013-11-04 10:00:00.000000" ⟨1000, 800⟩
        (.solved exRec)).map (fun hd => hdrLookup hd "DATE") ≠
      (build_hdr "2014-01-01 10:00:00.000000" ⟨1000, 800⟩
        (.solved exRec)).map (fun hd => hdrLookup hd "DATE") := by
  have hx : ((1000 : Nat) : ℚ) ≠ 0 := by norm_num
  have hy : ((800 : Nat) : ℚ) ≠ 0 := by norm_num
  obtain ⟨d, hcom⟩ := comments_shape [("Original Header", .lines exRec.txt)]
  simp +decide [build_hdr, pydiv, hx, hy, Bind.bind, Except.bind, pure,
    Except.pure, Except.map, hcom, document, hdrSet, hdrLookup]

end Astrom
